import Mathlib

/-!
Verification development for the `nearest-ai` radar UI.

The repository's algorithmic core lives in `src/App.tsx` (`generateBlips`,
`isStale`) and `src/services/geminiService.ts` / `src/unnamed/part_000`
(`fetchNearestWithMaps`).  We embed those functions shallowly:

* JavaScript numbers are modelled by exact rationals (`ℚ`); all the
  arithmetic the claims mention (`%` on non-negative operands, `+`, `*`,
  `/` by powers of ten) is exact on the values involved, so `ℚ` is the
  intended semantics of the source expressions.
* JavaScript strings are modelled by Lean `String`; `split('')` followed
  by `charCodeAt(0)` is modelled by the character-code list
  `s.data.map Char.toNat` (for text in the Basic Multilingual Plane the
  UTF-16 code unit of each split character coincides with its code point).
* `Date.now()` timestamps are modelled by integers; JavaScript truthiness
  of a `number | null` is captured explicitly (`null` or `0` is falsy).
-/

namespace NearestAI

/-- Data model of `src/types.ts` (`GroundingSource`). -/
structure GroundingSource where
  title : String
  uri : String
  deriving DecidableEq, Repr

/-- Data model of `src/types.ts` (`Blip`). -/
structure Blip where
  id : String
  distanceFactor : ℚ
  angle : ℚ
  title : String
  deriving DecidableEq, Repr

/-- Data model of `src/types.ts` (`ReconImage`). -/
structure ReconImage where
  url : String
  caption : String
  deriving DecidableEq, Repr

/-- Data model of `src/types.ts` (`TargetProfile`). -/
structure TargetProfile where
  name : String
  phone : Option String
  summary : String
  eta : Option String
  heading : Option String
  owner : Option String
  bio : Option String
  credentials : Option (List String)
  socials : Option (List String)
  fastestRouteUrl : Option String
  deriving DecidableEq, Repr

/-- Data model of `src/types.ts` (`SearchResult`).  Optional fields of the
TypeScript interface become `Option`s. -/
structure SearchResult where
  text : String
  sources : List GroundingSource
  isThinking : Bool
  blips : Option (List Blip)
  images : Option (List ReconImage)
  profile : Option TargetProfile
  groundingLinks : Option (List GroundingSource)
  deriving DecidableEq, Repr

/-- JavaScript `Math.trunc`, the rounding used by the `%` operator:
round toward zero. -/
def jsTrunc (q : ℚ) : ℤ :=
  if 0 ≤ q then ⌊q⌋ else ⌈q⌉

/-- JavaScript's `%` on numbers: `a % b = a - b * trunc(a / b)` (the
remainder carries the sign of the dividend).  Every use in the source has
a non-negative dividend and a positive divisor. -/
def jsFmod (a b : ℚ) : ℚ :=
  a - b * jsTrunc (a / b)

/-- The fingerprint hash of `generateBlips` (`src/App.tsx` line 77):
`title.split('').reduce((acc, char) => acc + char.charCodeAt(0), 0)`. -/
def jsHash (s : String) : ℕ :=
  s.data.foldl (fun acc c => acc + c.toNat) 0

/-- The angle assigned on line 82 of `src/App.tsx`:
`(hash * 137.5) % 360`. -/
def jsAngle (hash : ℕ) : ℚ :=
  jsFmod ((hash : ℚ) * 137.5) 360

/-- The distance factor assigned on line 81 of `src/App.tsx`:
`0.2 + ((index * 0.15 + (hash % 20) / 100) % 0.7)`. -/
def jsDistanceFactor (index hash : ℕ) : ℚ :=
  0.2 + jsFmod ((index : ℚ) * 0.15 + ((hash % 20 : ℕ) : ℚ) / 100) 0.7

/-- The blip built for one source at one index by the `map` callback of
`generateBlips` (`src/App.tsx` lines 76-83). -/
def mkBlip (index : ℕ) (source : GroundingSource) : Blip :=
  { id := "blip-" ++ toString index
    distanceFactor := jsDistanceFactor index (jsHash source.title)
    angle := jsAngle (jsHash source.title)
    title := source.title }

/-- `generateBlips` (`src/App.tsx` lines 75-85):
`searchResult.sources.map((source, index) => ...)`. -/
def generateBlips (searchResult : SearchResult) : List Blip :=
  searchResult.sources.enum.map (fun p => mkBlip p.1 p.2)

/-- `isStale` (`src/App.tsx` line 26):
`!!(locationTimestamp && Date.now() - locationTimestamp > 60000)`.
The JavaScript `&&` first tests `locationTimestamp` for truthiness, so a
`null` timestamp and a numeric timestamp `0` both yield `false`. -/
def isStale (locationTimestamp : Option ℤ) (now : ℤ) : Bool :=
  match locationTimestamp with
  | none => false
  | some t => if t = 0 then false else decide (60000 < now - t)

/-! ### Basic properties of the JavaScript remainder -/

theorem jsTrunc_eq_floor (q : ℚ) (h : 0 ≤ q) : jsTrunc q = ⌊q⌋ := by
  simp [jsTrunc, h]

theorem jsFmod_eq_fract (a b : ℚ) (ha : 0 ≤ a) (hb : 0 < b) :
    jsFmod a b = b * Int.fract (a / b) := by
  unfold jsFmod
  rw [jsTrunc_eq_floor _ (div_nonneg ha hb.le), Int.fract]
  have hbne : b ≠ 0 := ne_of_gt hb
  field_simp

theorem jsFmod_nonneg (a b : ℚ) (ha : 0 ≤ a) (hb : 0 < b) : 0 ≤ jsFmod a b := by
  rw [jsFmod_eq_fract a b ha hb]
  exact mul_nonneg hb.le (Int.fract_nonneg _)

theorem jsFmod_lt (a b : ℚ) (ha : 0 ≤ a) (hb : 0 < b) : jsFmod a b < b := by
  rw [jsFmod_eq_fract a b ha hb]
  calc b * Int.fract (a / b) < b * 1 :=
        mul_lt_mul_of_pos_left (Int.fract_lt_one _) hb
    _ = b := mul_one b

theorem jsAngle_nonneg (hash : ℕ) : 0 ≤ jsAngle hash :=
  jsFmod_nonneg _ _ (by positivity) (by norm_num)

theorem jsAngle_lt (hash : ℕ) : jsAngle hash < 360 :=
  jsFmod_lt _ _ (by positivity) (by norm_num)

theorem jsDistanceFactor_le (index hash : ℕ) : (0.2 : ℚ) ≤ jsDistanceFactor index hash := by
  have h := jsFmod_nonneg ((index : ℚ) * 0.15 + ((hash % 20 : ℕ) : ℚ) / 100) 0.7
    (by positivity) (by norm_num)
  unfold jsDistanceFactor
  linarith

theorem jsDistanceFactor_lt (index hash : ℕ) : jsDistanceFactor index hash < 0.9 := by
  have h := jsFmod_lt ((index : ℚ) * 0.15 + ((hash % 20 : ℕ) : ℚ) / 100) 0.7
    (by positivity) (by norm_num)
  unfold jsDistanceFactor
  norm_num at h ⊢
  linarith

/-! ### Indexing lemmas for `generateBlips` -/

theorem enumFrom_map_get? {α β : Type} (f : ℕ × α → β) (l : List α) :
    ∀ (n i : ℕ), ((List.enumFrom n l).map f).get? i = (l.get? i).map (fun a => f (n + i, a)) := by
  induction l with
  | nil => intro n i; simp
  | cons x xs ih =>
    intro n i
    cases i with
    | zero => simp [List.enumFrom]
    | succ j =>
      have h := ih (n + 1) j
      simp only [List.enumFrom, List.map_cons, List.get?_cons_succ, h]
      have harith : n + 1 + j = n + (j + 1) := by omega
      rw [harith]

theorem generateBlips_get? (r : SearchResult) (i : ℕ) :
    (generateBlips r).get? i = (r.sources.get? i).map (fun s => mkBlip i s) := by
  unfold generateBlips List.enum
  rw [enumFrom_map_get?]
  simp

theorem generateBlips_length (r : SearchResult) :
    (generateBlips r).length = r.sources.length := by
  simp [generateBlips]

theorem mkBlip_mem_range (index : ℕ) (source : GroundingSource) :
    0 ≤ (mkBlip index source).angle ∧ (mkBlip index source).angle < 360 ∧
    (0.2 : ℚ) ≤ (mkBlip index source).distanceFactor ∧
    (mkBlip index source).distanceFactor < 0.9 :=
  ⟨jsAngle_nonneg _, jsAngle_lt _, jsDistanceFactor_le _ _, jsDistanceFactor_lt _ _⟩

/-! ### Claim theorems -/

/-- C1: for every input list of N labeled grounding sources, `generateBlips`
returns exactly N blips, each with angle in [0, 360) and distanceFactor in
[0.2, 0.9); in particular, empty input yields empty output. -/
theorem generateBlips_count_and_annulus (r : SearchResult) :
    (generateBlips r).length = r.sources.length ∧
    (∀ b ∈ generateBlips r,
      0 ≤ b.angle ∧ b.angle < 360 ∧
      (0.2 : ℚ) ≤ b.distanceFactor ∧ b.distanceFactor < 0.9) ∧
    (r.sources = [] → generateBlips r = []) := by
  refine ⟨generateBlips_length r, ?_, ?_⟩
  · intro b hb
    obtain ⟨p, hp, rfl⟩ := List.mem_map.mp hb
    exact mkBlip_mem_range p.1 p.2
  · intro h
    simp [generateBlips, h]

/-- Witness for C1 at a concrete empty and a concrete one-element input. -/
theorem generateBlips_count_and_annulus_witness :
    generateBlips ⟨"", [], false, none, none, none, none⟩ = [] ∧
    (0.2 : ℚ) ≤ (mkBlip 0 ⟨"A", "u"⟩).distanceFactor := by
  have h1 := (generateBlips_count_and_annulus ⟨"", [], false, none, none, none, none⟩).2.2 rfl
  have hm : mkBlip 0 ⟨"A", "u"⟩ ∈ generateBlips ⟨"", [⟨"A", "u"⟩], false, none, none, none, none⟩ :=
    List.mem_singleton_self _
  have h2 := (generateBlips_count_and_annulus
    ⟨"", [⟨"A", "u"⟩], false, none, none, none, none⟩).2.1 _ hm
  exact ⟨h1, h2.2.2.1⟩

/-- C2 counterexample: the timestamp `0` is recorded (`isSome`) and exceeds the
threshold at `now = 70000`, yet `isStale` returns `false`, because the
JavaScript truthiness test `locationTimestamp &&` treats `0` as unset.  So
"true iff the last-fix timestamp is set and now - lastFix > 60000" fails. -/
theorem isStale_counterexample :
    isStale (some 0) 70000 = false ∧
    (some (0 : ℤ)).isSome = true ∧ (60000 : ℤ) < 70000 - 0 := by
  refine ⟨rfl, rfl, by norm_num⟩

/-- C2 (amended): `isStale` with threshold 60000 returns true iff the last-fix
timestamp is set to a nonzero value `t` and `now - t > 60000`; for nonzero
`t` it is false at `now = t + 59999` and true at `now = t + 60001`, and it is
false whenever no fix has been recorded. -/
theorem isStale_iff :
    (∀ (lf : Option ℤ) (now : ℤ),
      isStale lf now = true ↔ ∃ t, lf = some t ∧ t ≠ 0 ∧ 60000 < now - t) ∧
    (∀ t : ℤ, t ≠ 0 →
      isStale (some t) (t + 59999) = false ∧ isStale (some t) (t + 60001) = true) ∧
    (∀ now : ℤ, isStale none now = false) := by
  refine ⟨?_, ?_, fun now => rfl⟩
  · intro lf now
    cases lf with
    | none => simp [isStale]
    | some t =>
      by_cases h : t = 0
      · subst h
        simp [isStale]
      · simp [isStale, h]
  · intro t ht
    constructor <;> simp [isStale, ht]

/-- Witness for C2's amended theorem at `t = 5`. -/
theorem isStale_iff_witness :
    isStale (some 5) 70000 = true ∧ isStale (some 5) 60004 = false := by
  refine ⟨(isStale_iff.1 (some 5) 70000).mpr ⟨5, rfl, by decide, by decide⟩, ?_⟩
  have h := (isStale_iff.2.1 5 (by decide)).1
  norm_num at h
  exact h

/-- C3: the fingerprint hash is the sum of the character codes of the input
string, with no normalization; it is total and deterministic (it depends on
nothing but the character sequence), and the empty string hashes to 0. -/
theorem jsHash_spec (s : String) :
    jsHash s = (s.data.map Char.toNat).sum ∧
    jsHash "" = 0 ∧
    (∀ t : String, s.data = t.data → jsHash s = jsHash t) := by
  refine ⟨?_, rfl, ?_⟩
  · have key : ∀ (l : List Char) (acc : ℕ),
        l.foldl (fun a c => a + c.toNat) acc = acc + (l.map Char.toNat).sum := by
      intro l
      induction l with
      | nil => intro acc; simp
      | cons c cs ih =>
        intro acc
        simp [ih, Nat.add_assoc]
    simpa [jsHash] using key s.data 0
  · intro t ht
    simp [jsHash, ht]

/-- Witness for C3's determinism clause at a concrete string. -/
theorem jsHash_spec_witness : jsHash "Nearest" = jsHash "Nearest" :=
  (jsHash_spec "Nearest").2.2 "Nearest" rfl

/-- C4 counterexample: the single-character label `"A"` hashes to 65, not 0,
and its blip angle is 297.5, not 0 — so "a single-character or empty label
hashes to 0 ... placed at angle 0" fails for single-character labels. -/
theorem singleChar_counterexample :
    jsHash "A" = 65 ∧ jsHash "A" ≠ 0 ∧
    (mkBlip 0 ⟨"A", "u"⟩).angle = 595 / 2 ∧ (mkBlip 0 ⟨"A", "u"⟩).angle ≠ 0 := by
  have h : jsHash "A" = 65 := by decide
  have ha : (mkBlip 0 (⟨"A", "u"⟩ : GroundingSource)).angle = 595 / 2 := by
    show jsAngle (jsHash "A") = 595 / 2
    rw [h]
    norm_num [jsAngle, jsFmod, jsTrunc]
  refine ⟨h, by simp [h], ha, by rw [ha]; norm_num⟩

/-- C4 (amended): an empty label hashes to 0, so its blip sits at angle 0 and
at the base distance offset for its index, and a single-character label
hashes to its character's code; `mkBlip`/`generateBlips` are total, so no
input label is an error condition. -/
theorem empty_label_blip (i : ℕ) (uri : String) (c : Char) :
    jsHash "" = 0 ∧
    (mkBlip i ⟨"", uri⟩).angle = 0 ∧
    (mkBlip i ⟨"", uri⟩).distanceFactor = 0.2 + jsFmod ((i : ℚ) * 0.15) 0.7 ∧
    jsHash (String.mk [c]) = c.toNat := by
  refine ⟨rfl, ?_, ?_, by simp [jsHash]⟩
  · show jsAngle (jsHash "") = 0
    norm_num [jsHash, jsAngle, jsFmod, jsTrunc]
  · show jsDistanceFactor i (jsHash "") = 0.2 + jsFmod ((i : ℚ) * 0.15) 0.7
    norm_num [jsHash, jsDistanceFactor]

/-- C5: every blip is a pure deterministic function of the source titles and
their indices: any two search results whose sources carry the same titles in
the same order produce identical blip lists (so two calls on identical input
are bit-identical — there is no randomness or hidden state). -/
theorem generateBlips_deterministic (r₁ r₂ : SearchResult)
    (h : r₁.sources.map GroundingSource.title = r₂.sources.map GroundingSource.title) :
    generateBlips r₁ = generateBlips r₂ := by
  have hm : ∀ i : ℕ, (r₁.sources.get? i).map GroundingSource.title =
      (r₂.sources.get? i).map GroundingSource.title := by
    intro i
    rw [← List.get?_map, ← List.get?_map, h]
  apply List.ext
  intro i
  rw [generateBlips_get?, generateBlips_get?]
  have hi := hm i
  cases h1 : r₁.sources.get? i with
  | none =>
    cases h2 : r₂.sources.get? i with
    | none => rfl
    | some s₂ => rw [h1, h2] at hi; simp at hi
  | some s₁ =>
    cases h2 : r₂.sources.get? i with
    | none => rw [h1, h2] at hi; simp at hi
    | some s₂ =>
      rw [h1, h2] at hi
      simp at hi
      simp [mkBlip, hi]

/-- Witness for C5: same titles, different uris and surrounding state. -/
theorem generateBlips_deterministic_witness :
    generateBlips ⟨"x", [⟨"A", "u1"⟩], true, none, none, none, none⟩ =
    generateBlips ⟨"y", [⟨"A", "u2"⟩], false, none, none, none, none⟩ :=
  generateBlips_deterministic _ _ rfl

/-- C6: `generateBlips` preserves input ordering — the i-th source's title is
the i-th blip's title — and synthesizes the i-th identifier as `blip-<i>`. -/
theorem generateBlips_ordering (r : SearchResult) (i : ℕ) :
    ((generateBlips r).get? i).map Blip.title =
      (r.sources.get? i).map GroundingSource.title ∧
    ((generateBlips r).get? i).map Blip.id =
      (r.sources.get? i).map (fun _ => "blip-" ++ toString i) ∧
    (generateBlips r).length = r.sources.length := by
  refine ⟨?_, ?_, generateBlips_length r⟩ <;>
    rw [generateBlips_get?] <;> cases r.sources.get? i <;> simp [mkBlip]

/-- The angle map factors through the fractional part of `h * 275 / 720`. -/
theorem jsAngle_eq_fract (hash : ℕ) :
    jsAngle hash = 360 * Int.fract ((hash : ℚ) * 275 / 720) := by
  unfold jsAngle
  rw [jsFmod_eq_fract _ _ (by positivity) (by norm_num)]
  congr 1
  ring_nf

/-- C7 counterexample: the distinct labels `""` and `"HH"` have distinct
hashes (0 and 144), yet the multiplier 137.5 sends both to angle 0, because
`144 * 137.5 = 19800` is a multiple of 360.  So "for any two distinct labels
with different hash values, the assigned angles differ" fails. -/
theorem angle_collision_counterexample :
    jsHash "" = 0 ∧ jsHash "HH" = 144 ∧ jsHash "" ≠ jsHash "HH" ∧
    (mkBlip 0 ⟨"", "u"⟩).angle = (mkBlip 0 ⟨"HH", "u"⟩).angle := by
  have h0 : jsHash "" = 0 := rfl
  have h144 : jsHash "HH" = 144 := by decide
  refine ⟨h0, h144, by simp [h0, h144], ?_⟩
  show jsAngle (jsHash "") = jsAngle (jsHash "HH")
  rw [h0, h144]
  norm_num [jsAngle, jsFmod, jsTrunc]

/-- C7 (amended): the multiplier 137.5 collapses two hashes to the same angle
modulo 360 exactly when the hashes are congruent modulo 144; equivalently,
two labels whose hashes are not congruent mod 144 always receive distinct
angles. -/
theorem jsAngle_eq_iff (h₁ h₂ : ℕ) :
    jsAngle h₁ = jsAngle h₂ ↔ h₁ % 144 = h₂ % 144 := by
  rw [jsAngle_eq_fract, jsAngle_eq_fract,
    mul_right_inj' (by norm_num : (360 : ℚ) ≠ 0), Int.fract_eq_fract]
  constructor
  · rintro ⟨z, hz⟩
    have hzq : (h₁ : ℚ) * 275 - (h₂ : ℚ) * 275 = 720 * z := by
      field_simp at hz
      linarith
    have hzi : (h₁ : ℤ) * 275 - (h₂ : ℤ) * 275 = 720 * z := by
      exact_mod_cast hzq
    have h720 : (720 : ℤ) ∣ ((h₁ : ℤ) - h₂) * 275 := ⟨z, by linarith⟩
    have h144 : (144 : ℤ) ∣ ((h₁ : ℤ) - h₂) * 55 := by
      have h5 : (5 : ℤ) * 144 ∣ 5 * (((h₁ : ℤ) - h₂) * 55) := by
        have : ((h₁ : ℤ) - h₂) * 275 = 5 * (((h₁ : ℤ) - h₂) * 55) := by ring
        rw [← this]
        exact (show ((720 : ℤ) = 5 * 144) by norm_num) ▸ h720
      exact (mul_dvd_mul_iff_left (by norm_num : (5 : ℤ) ≠ 0)).mp h5
    have hco : IsCoprime (144 : ℤ) 55 := by
      rw [Int.isCoprime_iff_gcd_eq_one]
      norm_num
    have hdvd : (144 : ℤ) ∣ (h₁ : ℤ) - h₂ := hco.dvd_of_dvd_mul_right h144
    have : (144 : ℤ) ∣ (h₂ : ℤ) - h₁ := by
      obtain ⟨k, hk⟩ := hdvd
      exact ⟨-k, by linarith⟩
    exact (Nat.modEq_iff_dvd.mpr this : Nat.ModEq 144 h₁ h₂)
  · intro hmod
    have hdvd : (144 : ℤ) ∣ (h₂ : ℤ) - h₁ :=
      Nat.modEq_iff_dvd.mp (hmod : Nat.ModEq 144 h₁ h₂)
    obtain ⟨k, hk⟩ := hdvd
    refine ⟨-(k * 55), ?_⟩
    have hq : (h₂ : ℚ) - h₁ = 144 * k := by exact_mod_cast hk
    push_cast
    linarith

/-- Witness for C7's amended theorem: hashes 1 and 145 are congruent mod 144
and indeed receive the same angle. -/
theorem jsAngle_eq_iff_witness : jsAngle 1 = jsAngle 145 :=
  (jsAngle_eq_iff 1 145).mpr (by decide)

/-- C8: the three core functions are total with well-defined outputs on their
whole domains — any search result yields exactly one blip per source, every
blip lies in the documented annulus and angle range, the empty string hashes
to 0, and the staleness evaluator yields `false` both before any fix and at
the exact-threshold boundary timestamp. -/
theorem core_functions_total (r : SearchResult) (now : ℤ) :
    jsHash "" = 0 ∧
    (generateBlips r).length = r.sources.length ∧
    (∀ b ∈ generateBlips r,
      (0.2 : ℚ) ≤ b.distanceFactor ∧ b.distanceFactor < 0.9 ∧
      0 ≤ b.angle ∧ b.angle < 360) ∧
    isStale none now = false ∧
    isStale (some (now - 60000)) now = false := by
  refine ⟨rfl, generateBlips_length r, ?_, rfl, ?_⟩
  · intro b hb
    obtain ⟨p, hp, rfl⟩ := List.mem_map.mp hb
    obtain ⟨ha1, ha2, hd1, hd2⟩ := mkBlip_mem_range p.1 p.2
    exact ⟨hd1, hd2, ha1, ha2⟩
  · by_cases h : now - 60000 = 0 <;> simp [isStale, h]

/-- Witness for C8 at a concrete one-source result and concrete time. -/
theorem core_functions_total_witness :
    (0.2 : ℚ) ≤ (mkBlip 0 ⟨"", "u"⟩).distanceFactor ∧ isStale none 0 = false := by
  have h := core_functions_total ⟨"", [⟨"", "u"⟩], false, none, none, none, none⟩ 0
  have hm : mkBlip 0 ⟨"", "u"⟩ ∈
      generateBlips ⟨"", [⟨"", "u"⟩], false, none, none, none, none⟩ :=
    List.mem_singleton_self _
  exact ⟨(h.2.2.1 _ hm).1, h.2.2.2.1⟩

/-- C9: a recorded last-fix timestamp equal to the numeric value 0 makes the
staleness check `false` for every current time, because the truthiness test
`locationTimestamp &&` treats the number 0 like a missing fix. -/
theorem isStale_zero_timestamp (now : ℤ) : isStale (some 0) now = false := rfl

/-! ### `fetchNearestWithMaps` (`src/services/geminiService.ts`, also
`src/unnamed/part_000`, lines 38-104).

The network call and the JSON/regex metadata extraction are external
effects; we embed the function's own post-processing of a received
response, with the `METADATA:` extraction (a regex match plus
`JSON.parse`, lines 78-86) abstracted as a parameter `parseMeta` taking
the full text to the stripped text and the optional parsed profile.  The
upstream call either yields a response or throws, modelled by `Except`. -/

/-- One grounding chunk of the response
(`response.candidates?.[0]?.groundingMetadata?.groundingChunks`): it may
carry a `maps` record, a `web` record (each a title that may be missing
and a uri), both, or neither. -/
structure ChunkRecord where
  title : Option String
  uri : String
  deriving DecidableEq, Repr

/-- A grounding chunk as consumed by the `.map` callback on lines 90-94. -/
structure GroundingChunk where
  maps : Option ChunkRecord
  web : Option ChunkRecord
  deriving DecidableEq, Repr

/-- The data of a generation response that `fetchNearestWithMaps` reads:
`response.text` (possibly absent) and the grounding chunks (defaulted to
`[]` by `|| []` on line 88). -/
structure GenResponse where
  text : Option String
  chunks : List GroundingChunk
  deriving DecidableEq, Repr

/-- JavaScript `a || b` for a possibly-absent string `a`: the default wins
when `a` is `undefined`/`null` or the empty string (both falsy). -/
def jsOrString (s : Option String) (default : String) : String :=
  match s with
  | none => default
  | some v => if v = "" then default else v

/-- The chunk-to-link callback on lines 90-94: a `maps` chunk wins over a
`web` chunk; a chunk with neither becomes `null` and is filtered out. -/
def chunkToLink (c : GroundingChunk) : Option GroundingSource :=
  match c.maps with
  | some m => some ⟨jsOrString m.title "Map Link", m.uri⟩
  | none =>
    match c.web with
    | some w => some ⟨jsOrString w.title "Reference", w.uri⟩
    | none => none

/-- `groundingLinks` (lines 89-95): map every chunk through `chunkToLink`
and drop the `null`s. -/
def mkGroundingLinks (chunks : List GroundingChunk) : List GroundingSource :=
  chunks.filterMap chunkToLink

/-- JavaScript `haystack.includes(needle)` on the underlying character
lists: some suffix of the haystack starts with the needle. -/
def containsSub (needle : List Char) : List Char → Bool
  | [] => needle.isEmpty
  | a :: t => needle.isPrefixOf (a :: t) || containsSub needle t

/-- `uri.includes('google.com/maps')` of line 97. -/
def strIncludes (hay needle : String) : Bool :=
  containsSub needle.data hay.data

/-- `fetchNearestWithMaps` (lines 38-104), with the upstream call already
performed (`resp`) and the `METADATA:` extraction abstracted as
`parseMeta` (text stripping plus `JSON.parse`, lines 75-86).  The `catch`
branch of lines 100-103 is the `Except.error` case. -/
def fetchNearestWithMaps (parseMeta : String → String × Option TargetProfile)
    (resp : Except Unit GenResponse) : SearchResult :=
  match resp with
  | Except.error _ =>
    { text := "Tactical data link severed.", sources := [], isThinking := false,
      blips := none, images := none, profile := none, groundingLinks := none }
  | Except.ok r =>
    let fullText := jsOrString r.text "Signal interrupted."
    let parsed := parseMeta fullText
    let groundingLinks := mkGroundingLinks r.chunks
    let sources := groundingLinks.filter (fun l => strIncludes l.uri "google.com/maps")
    { text := parsed.1, sources := sources, isThinking := false,
      blips := none, images := none, profile := parsed.2,
      groundingLinks := some groundingLinks }

/-- C10: on a successful upstream response the returned `sources` are exactly
the order-preserving subsequence of `groundingLinks` whose uri contains the
substring `google.com/maps`, and `groundingLinks` is returned alongside; on
a thrown upstream error the result has empty sources and `isThinking`
false. -/
theorem fetchNearestWithMaps_sources_spec
    (parseMeta : String → String × Option TargetProfile) (resp : GenResponse) :
    (fetchNearestWithMaps parseMeta (Except.ok resp)).sources =
      (mkGroundingLinks resp.chunks).filter (fun l => strIncludes l.uri "google.com/maps") ∧
    (fetchNearestWithMaps parseMeta (Except.ok resp)).groundingLinks =
      some (mkGroundingLinks resp.chunks) ∧
    List.Sublist (fetchNearestWithMaps parseMeta (Except.ok resp)).sources
      (mkGroundingLinks resp.chunks) ∧
    (fetchNearestWithMaps parseMeta (Except.error ())).sources = [] ∧
    (fetchNearestWithMaps parseMeta (Except.error ())).isThinking = false := by
  refine ⟨rfl, rfl, ?_, rfl, rfl⟩
  exact List.filter_sublist _

end NearestAI
